import Mathlib

/-!
Verification model of the hasura_mcp server core.

Shallow embedding of the TypeScript sources under src/: the post-hoc result
trimming and pre-flight limit ceiling of RunGraphQLQueryTool, the role check
of RunGraphQLQueryTool / RunGraphQLMutationTool, the type-wrapper walking of
DescribeTableTool and PreviewTableDataTool, the field projection of
PreviewTableDataTool, the aggregate query synthesis of AggregateDataTool,
the schema cache of index.ts, and the root-type classification of
CheckUnsupportedRootTypesTool and ListRootFieldsTool.

Modelling conventions: JSON values are the inductive JsValue (numbers as Int;
no floating point is relevant to the verified properties); JS objects are
ordered key/value lists traversed in list order; a thrown JS error is an
explicit error constructor; the external request function and its response
are parameters, so that an outcome constructor records whether the network
was reached and with which document and variable map.
-/

/-- JSON-like runtime value, as handled by the tools. -/
inductive JsValue where
  | null : JsValue
  | bool (b : Bool) : JsValue
  | num (n : Int) : JsValue
  | str (s : String) : JsValue
  | arr (xs : List JsValue) : JsValue
  | obj (fs : List (String × JsValue)) : JsValue

mutual

/-- Embedding of `trimResult` (src/src/tools/RunGraphQLQueryTool.ts lines 61-77):
recursive walk returning the possibly-trimmed value together with the
`trimmedFields` entries pushed during the walk, in push order. Arrays longer
than 100 are cut to their first 100 elements and recorded; arrays of length
at most 100 are mapped elementwise with bracketed index paths; non-null
objects are mapped over their keys with dotted paths; everything else passes
through. -/
def trimResult : JsValue → String → JsValue × List String
  | .arr xs, path =>
    if 100 < xs.length then
      (.arr (xs.take 100), [path ++ " (" ++ toString xs.length ++ " rows trimmed to 100)"])
    else
      let r := trimArray xs path 0
      (.arr r.1, r.2)
  | .obj fs, path =>
    let r := trimObject fs path
    (.obj r.1, r.2)
  | j, _ => (j, [])

/-- Elementwise walk of an array of length at most 100: element `i` is
processed under path `path[i]` (line 68 of RunGraphQLQueryTool.ts). -/
def trimArray : List JsValue → String → Nat → List JsValue × List String
  | [], _, _ => ([], [])
  | x :: xs, path, idx =>
    let r1 := trimResult x (path ++ "[" ++ toString idx ++ "]")
    let r2 := trimArray xs path (idx + 1)
    (r1.1 :: r2.1, r1.2 ++ r2.2)

/-- Walk of an object: value of key `k` is processed under path `k` when the
current path is the root marker, else `path.k` (line 72). -/
def trimObject : List (String × JsValue) → String → List (String × JsValue) × List String
  | [], _ => ([], [])
  | (k, v) :: fs, path =>
    let r1 := trimResult v (if path == "root" then k else path ++ "." ++ k)
    let r2 := trimObject fs path
    ((k, r1.1) :: r2.1, r1.2 ++ r2.2)

end

/-- Warning text attached under `_warning` when trimming occurred
(RunGraphQLQueryTool.ts line 94). -/
def trimWarningText (trimmedFields : List String) : String :=
  "Results were automatically trimmed to 100 rows per array to prevent excessive data. Trimmed fields: "
    ++ String.intercalate ", " trimmedFields
    ++ ". Use pagination in your query (limit/offset) or set forceBigQuery=true to get all results."

/-- JS object-spread view of a value, as in `\x7b...value\x7d`: objects give their
own pairs, arrays give index-keyed pairs, strings give index-keyed characters,
primitives give nothing. -/
def jsSpreadPairs : JsValue → List (String × JsValue)
  | .obj fs => fs
  | .arr xs => ((List.range xs.length).zip xs).map (fun p => (toString p.1, p.2))
  | .str s => ((List.range s.length).zip s.toList).map (fun p => (toString p.1, .str (String.mk [p.2])))
  | _ => []

/-- JS object-literal update `\x7b...o, k: v\x7d`: an existing key keeps its
position and gets the new value, a fresh key is appended. -/
def setPair : List (String × JsValue) → String → JsValue → List (String × JsValue)
  | [], k, v => [(k, v)]
  | p :: rest, k, v => if p.1 == k then (k, v) :: rest else p :: setPair rest k v

/-- The annotated payload `\x7b ...trimmedResult, _warning: ... \x7d`
(RunGraphQLQueryTool.ts lines 92-95). -/
def withWarningKey (trimmedResult : JsValue) (trimmedFields : List String) : JsValue :=
  .obj (setPair (jsSpreadPairs trimmedResult) "_warning" (.str (trimWarningText trimmedFields)))

/-- Result shaping stage of RunGraphQLQueryTool.execute (lines 56-103): with
`forceBigQuery` unset the response is walked by `trimResult` and, when any
field was trimmed, the `_warning` annotation is spread in; with the flag set
the response is returned as-is. -/
def runQueryResult (forceBigQuery : Bool) (result : JsValue) : JsValue :=
  if !forceBigQuery then
    let r := trimResult result "root"
    if !r.2.isEmpty then withWarningKey r.1 r.2 else r.1
  else
    result

/-- Whitespace recognized by the JS `trim` (WhiteSpace plus LineTerminator
code points). -/
def jsWhitespace (c : Char) : Bool :=
  c == ' ' || c == '\t' || c == '\n' || c == '\r' ||
  c.val == 0x000b || c.val == 0x000c || c.val == 0x00a0 || c.val == 0xfeff ||
  c.val == 0x1680 || (0x2000 ≤ c.val && c.val ≤ 0x200a) ||
  c.val == 0x2028 || c.val == 0x2029 || c.val == 0x202f || c.val == 0x205f || c.val == 0x3000

/-- JS `String.prototype.trim`: strip whitespace from both ends. -/
def jsTrim (s : String) : String :=
  String.mk (((s.toList.dropWhile jsWhitespace).reverse.dropWhile jsWhitespace).reverse)

/-- JS `String.prototype.toLowerCase`, restricted to the ASCII lowering that
is relevant to the `mutation` keyword comparison. -/
def jsToLower (s : String) : String :=
  String.mk (s.toList.map Char.toLower)

/-- JS `String.prototype.startsWith`, via character lists. -/
def jsStartsWith (s pre : String) : Bool :=
  pre.toList.isPrefixOf s.toList

/-- JS `String.prototype.endsWith`, via character lists. -/
def jsEndsWith (s suf : String) : Bool :=
  suf.toList.isSuffixOf s.toList

/-- The role-check predicate `query.trim().toLowerCase().startsWith('mutation')`
(RunGraphQLQueryTool.ts line 49, RunGraphQLMutationTool line 32). -/
def isMutationPrefixed (q : String) : Bool :=
  jsStartsWith (jsToLower (jsTrim q)) "mutation"

/-- Rejection message of the read-only tool (RunGraphQLQueryTool.ts line 50). -/
def readOnlyRejectText : String :=
  "This tool only supports read-only queries..."

/-- Rejection message of the limit safety check (part_003 line 55). -/
def limitRejectText : String :=
  "Query requires limit <= 100. Set forceBigQuery=true to bypass this safety check."

/-- Rejection message of the mutation tool (part_002 line 33). -/
def notMutationRejectText : String :=
  "The provided string does not appear to be a mutation..."

/-- Outcome of the current RunGraphQLQueryTool.execute: either a validation
error thrown before `makeGqlRequest`, or the network reached with the given
document and vars, producing the shaped payload from the response. -/
inductive QueryToolOutcome where
  | rejected (msg : String) : QueryToolOutcome
  | requested (document : String) (vars : List (String × JsValue)) (payload : JsValue) : QueryToolOutcome

/-- Embedding of RunGraphQLQueryTool.execute (src/src/tools/RunGraphQLQueryTool.ts
lines 45-103), with the network response as a parameter: mutation-prefixed
documents are rejected before the request; otherwise the document and
`variables || \x7b\x7d` are sent verbatim and the response is shaped by
`runQueryResult`. -/
def runGraphQLQueryExecute (query : String) (vars : Option (List (String × JsValue)))
    (forceBigQuery : Bool) (response : JsValue) : QueryToolOutcome :=
  if isMutationPrefixed query then
    .rejected readOnlyRejectText
  else
    .requested query (vars.getD []) (runQueryResult forceBigQuery response)

/-- Outcome of the pre-flight tools: a validation error thrown before
`makeGqlRequest`, or the network reached with document and vars. -/
inductive PreflightOutcome where
  | rejected (msg : String) : PreflightOutcome
  | requested (document : String) (vars : List (String × JsValue)) : PreflightOutcome

/-- True exactly when the external request function was invoked. -/
def PreflightOutcome.reachesNetwork : PreflightOutcome → Bool
  | .rejected _ => false
  | .requested _ _ => true

/-- Embedding of the pre-flight-ceiling RunGraphQLQueryTool.execute
(src/unnamed/part_003 lines 40-65): after the role check, the safety check
`!forceBigQuery && (limit === undefined || limit > 100)` rejects before any
network call; otherwise limit and offset are merged into the vars and
the request is made. -/
def runGraphQLQueryExecutePreflight (query : String) (vars : Option (List (String × JsValue)))
    (limit : Option Nat) (offset : Option Nat) (forceBigQuery : Bool) : PreflightOutcome :=
  if isMutationPrefixed query then
    .rejected readOnlyRejectText
  else if !forceBigQuery && (match limit with | none => true | some l => decide (100 < l)) then
    .rejected limitRejectText
  else
    let m0 := vars.getD []
    let m1 := match limit with | some l => setPair m0 "limit" (.num (Int.ofNat l)) | none => m0
    let m2 := match offset with | some o => setPair m1 "offset" (.num (Int.ofNat o)) | none => m1
    .requested query m2

/-- Embedding of RunGraphQLMutationTool.execute (src/unnamed/part_002
lines 28-38): documents not beginning with the mutation keyword are rejected
before the request; otherwise document and vars pass verbatim. -/
def runGraphQLMutationExecute (mutation : String) (vars : Option (List (String × JsValue))) : PreflightOutcome :=
  if !(isMutationPrefixed mutation) then
    .rejected notMutationRejectText
  else
    .requested mutation (vars.getD [])

/-- Introspection type-reference node as returned over the wire: a kind tag,
an optional name, and an `ofType` link that is either present (`wrap`) or
absent (`leaf`). A well-formed wrapper chain ends at a node whose kind is
neither NON_NULL nor LIST. -/
inductive TypeNode where
  | leaf (kind : String) (name : Option String) : TypeNode
  | wrap (kind : String) (name : Option String) (ofType : TypeNode) : TypeNode

/-- Embedding of the unwrap loop of PreviewTableDataTool.execute (line 53):
`while (kind is NON_NULL or LIST) currentType = currentType.ofType`, then the
innermost kind is inspected. `none` models the JS TypeError raised when a
wrapper node has no `ofType` (the loop would read `kind` of undefined). -/
def previewLeafKind : TypeNode → Option String
  | .leaf kind _ => if kind == "NON_NULL" || kind == "LIST" then none else some kind
  | .wrap kind _ t => if kind == "NON_NULL" || kind == "LIST" then previewLeafKind t else some kind

/-- The JS fallback `typeInfo.name || 'unknown'` of DescribeTableTool.ts
line 115: a missing or empty name renders as `unknown`. -/
def jsNameOr : Option String → String
  | none => "unknown"
  | some n => if n == "" then "unknown" else n

/-- Result of the wrapper-resolution loop of DescribeTableTool.execute:
the recovered type name plus the two observation flags. -/
structure ResolvedType where
  typeString : String
  isNonNull : Bool
  isList : Bool

/-- Embedding of the while loop of DescribeTableTool.execute (lines 107-118):
each NON_NULL layer sets `isNonNull`, each LIST layer sets `isList`, and the
walk follows `ofType`; a node of any other kind stops the loop with
`name || 'unknown'`; running off the chain (absent `ofType`) leaves the
initial empty `typeString` with no error. -/
def describeResolve : TypeNode → Bool → Bool → ResolvedType
  | .leaf kind name, isNN, isL =>
    if kind == "NON_NULL" then ⟨"", true, isL⟩
    else if kind == "LIST" then ⟨"", isNN, true⟩
    else ⟨jsNameOr name, isNN, isL⟩
  | .wrap kind name t, isNN, isL =>
    if kind == "NON_NULL" then describeResolve t true isL
    else if kind == "LIST" then describeResolve t isNN true
    else ⟨jsNameOr name, isNN, isL⟩

/-- Display-string reconstruction of DescribeTableTool.execute (lines 120-128):
bracket the name when a LIST layer was observed, append `!` when a NON_NULL
layer was observed. -/
def describeTypeDisplay (t : TypeNode) : String :=
  let r := describeResolve t false false
  let full := if r.isList then "[" ++ r.typeString ++ "]" else r.typeString
  if r.isNonNull then full ++ "!" else full

/-- Name recovered by the Describe walk: the terminal node's
`name || 'unknown'`, or the empty string when the chain has no terminal. -/
def chainName : TypeNode → String
  | .leaf kind name => if kind == "NON_NULL" || kind == "LIST" then "" else jsNameOr name
  | .wrap kind name t => if kind == "NON_NULL" || kind == "LIST" then chainName t else jsNameOr name

/-- Whether the Describe walk observes a NON_NULL layer anywhere before it
stops. -/
def chainHasNonNull : TypeNode → Bool
  | .leaf kind _ => kind == "NON_NULL"
  | .wrap kind _ t => if kind == "NON_NULL" then true else if kind == "LIST" then chainHasNonNull t else false

/-- Whether the Describe walk observes a LIST layer anywhere before it
stops. -/
def chainHasList : TypeNode → Bool
  | .leaf kind _ => kind == "LIST"
  | .wrap kind _ t => if kind == "NON_NULL" then chainHasList t else kind == "LIST"

/-- A chain made only of NON_NULL/LIST wrapper nodes that runs off an absent
`ofType`: it terminates without any NAMED node. -/
def unterminatedChain : TypeNode → Bool
  | .leaf kind _ => kind == "NON_NULL" || kind == "LIST"
  | .wrap kind _ t => (kind == "NON_NULL" || kind == "LIST") && unterminatedChain t

/-- Whether the outermost layer of the reference carries the NON_NULL
marker. -/
def outermostIsNonNull : TypeNode → Bool
  | .leaf kind _ => kind == "NON_NULL"
  | .wrap kind _ _ => kind == "NON_NULL"

/-- Modelled from the spec: display string under the outermost-marker rule of
section 4.1, where the trailing `!` reflects only the outer NON_NULL marker
(a list of non-null elements carries no trailing `!`). Used to compare the
spec's rendering rule with the code's. -/
def specOutermostDisplay (t : TypeNode) : String :=
  let base := if chainHasList t then "[" ++ chainName t ++ "]" else chainName t
  if outermostIsNonNull t then base ++ "!" else base

/-- Field of an OBJECT type: name and type reference, as consumed by the
projection of PreviewTableDataTool. -/
structure FieldDef where
  name : String
  type : TypeNode

/-- Embedding of the filter of PreviewTableDataTool.execute (lines 50-55):
each field's type is unwrapped and the field is kept when the innermost kind
is SCALAR or ENUM; `none` models the JS TypeError propagating out of the
filter callback when a wrapper chain has no terminal node. -/
def previewFilterFields : List FieldDef → Option (List FieldDef)
  | [] => some []
  | f :: fs =>
    match previewLeafKind f.type with
    | none => none
    | some k =>
      match previewFilterFields fs with
      | none => none
      | some rest => some (if k == "SCALAR" || k == "ENUM" then f :: rest else rest)

/-- Embedding of PreviewTableDataTool.execute lines 50-61: project the
scalar/enum field names in order, falling back to the single synthetic
`__typename` field when the filtered list is empty. -/
def previewScalarFields (fields : List FieldDef) : Option (List String) :=
  (previewFilterFields fields).map (fun kept =>
    let names := kept.map (fun f => f.name)
    if names.length == 0 then ["__typename"] else names)

/-- The projection described by the spec (section 4.4): keep exactly the
fields whose innermost kind is SCALAR or ENUM, in order; if none remain,
the single synthetic type-name field. Stated over the same unwrapping so the
code's projection can be compared with it. -/
def projectionSpec (fields : List FieldDef) : List String :=
  let names := (fields.filter (fun f =>
    previewLeafKind f.type == some "SCALAR" || previewLeafKind f.type == some "ENUM")).map (fun f => f.name)
  if names.isEmpty then ["__typename"] else names

/-- JS truthiness of the optional `field` argument: undefined and the empty
string are falsy. -/
def jsTruthy : Option String → Bool
  | none => false
  | some s => !(s == "")

/-- Outcome of AggregateDataTool.execute up to the network boundary. -/
inductive AggregateOutcome where
  | rejected (msg : String) : AggregateOutcome
  | requested (document : String) (vars : List (String × JsValue)) : AggregateOutcome

/-- Aggregate selection synthesis of AggregateDataTool.execute (lines 48-55):
`\x7b count \x7d` for the count function, `\x7b fn \x7b field \x7d \x7d` when a truthy field is
present, and otherwise no selection (the dead throw on line 54). -/
def aggregateSelection (aggregateFunction : String) (field : Option String) : Option String :=
  if aggregateFunction == "count" then some "\x7b count \x7d"
  else if jsTruthy field then
    some ("\x7b " ++ aggregateFunction ++ " \x7b " ++ field.getD "" ++ " \x7d \x7d")
  else none

/-- Embedding of AggregateDataTool.execute (lines 35-72): the missing-field
validation error is thrown before any network call; otherwise the gql
template of lines 61-67 is assembled verbatim (filter variable declaration
and where clause only when a filter is given) and sent with the filter bound
as a variable. -/
def aggregateExecute (tableName aggregateFunction : String) (field : Option String)
    (filter : Option JsValue) : AggregateOutcome :=
  if !(aggregateFunction == "count") && !(jsTruthy field) then
    .rejected ("The \x27field\x27 parameter is required for \x27" ++ aggregateFunction ++ "\x27 aggregation.")
  else
    let aggregateTableName := tableName ++ "_aggregate"
    match aggregateSelection aggregateFunction field with
    | none =>
      .rejected ("\x27field\x27 parameter is missing for \x27" ++ aggregateFunction ++ "\x27 aggregation.")
    | some sel =>
      let boolExpTypeName := tableName ++ "_bool_exp"
      let filterVariableDefinition := match filter with
        | some _ => "($filter: " ++ boolExpTypeName ++ "!)"
        | none => ""
      let whereClause := match filter with
        | some _ => "where: $filter"
        | none => ""
      let query := "\n      query AggregateData " ++ filterVariableDefinition ++ " \x7b\n        "
        ++ aggregateTableName ++ "(" ++ whereClause ++ ") \x7b\n          aggregate " ++ sel
        ++ "\n        \x7d\n      \x7d\n    "
      let vars := match filter with
        | some f => [("filter", f)]
        | none => []
      .requested query vars

/-- Introspection type descriptor as consumed by the root-type classifier:
kind tag, name, and the field list when the wire object carries a `fields`
property. -/
structure SType where
  kind : String
  name : String
  fields : Option (List FieldDef)

/-- Introspected schema snapshot: the three optional root-type names and the
type list. -/
structure SchemaModel where
  queryType : Option String
  mutationType : Option String
  subscriptionType : Option String
  types : List SType

/-- Result of `makeGqlRequest(introspectionQuery)` as seen by the cache: a
parsed reply whose `__schema` member may be missing, or a raised error. -/
inductive FetchOutcome where
  | ok (root : Option SchemaModel) : FetchOutcome
  | err (msg : String) : FetchOutcome

/-- What one call to `getIntrospectionSchema` produces: the value returned or
error raised, the cache contents afterwards, and whether the fetch (the
external request function) was invoked during the call. -/
structure CacheCallResult where
  result : Except String SchemaModel
  cacheAfter : Option SchemaModel
  fetchInvoked : Bool

/-- Embedding of `getIntrospectionSchema` (src/src/index.ts lines 79-98) as a
state transformer over the module-level `introspectionSchema` cell, with the
fetch outcome a parameter: a populated cache is returned immediately with no
fetch; an empty cache triggers the fetch, caches a present `__schema`, and on
a missing `__schema` or a raised error clears the cache and rethrows with the
`Failed to get GraphQL schema:` context prefix. -/
def getIntrospectionSchemaStep (cache : Option SchemaModel) (fetch : FetchOutcome) : CacheCallResult :=
  match cache with
  | some s => ⟨.ok s, some s, false⟩
  | none =>
    match fetch with
    | .ok (some sch) => ⟨.ok sch, some sch, true⟩
    | .ok none =>
      ⟨.error ("Failed to get GraphQL schema: " ++ "Introspection query did not return a __schema object."),
       none, true⟩
    | .err m => ⟨.error ("Failed to get GraphQL schema: " ++ m), none, true⟩

/-- The three canonical root-type names present in the schema, in
query/mutation/subscription order: the contents of the `supportedTypes` set
built by CheckUnsupportedRootTypesTool lines 41-52. -/
def canonicalRootNames (s : SchemaModel) : List String :=
  [s.queryType, s.mutationType, s.subscriptionType].filterMap id

/-- The `rootTypeNames` array of CheckUnsupportedRootTypesTool line 56 and
ListRootFieldsTool line 68: the three optional names with falsy entries
(absent roots and empty names) removed by `.filter(Boolean)`. -/
def rootTypeNamesOf (s : SchemaModel) : List String :=
  (canonicalRootNames s).filter (fun n => !(n == ""))

/-- The shared suspect filter of CheckUnsupportedRootTypesTool lines 57-62 and
ListRootFieldsTool lines 69-74: OBJECT kind, name ending in `_root`, not one
of the registered root-type names, not introspection-reserved. -/
def rootSuspectFilter (s : SchemaModel) (t : SType) : Bool :=
  t.kind == "OBJECT" && jsEndsWith t.name "_root" &&
    !((rootTypeNamesOf s).contains t.name) && !(jsStartsWith t.name "__")

/-- Field count reported for a suspect type: `'fields' in t ? t.fields.length : 0`
(CheckUnsupportedRootTypesTool line 69). -/
def fieldCountOf (t : SType) : Nat :=
  match t.fields with
  | some fs => fs.length
  | none => 0

/-- Embedding of the classifier of CheckUnsupportedRootTypesTool.execute
(lines 35-75): the filtered suspect types are pushed with their field counts
after the redundant re-check against the `supportedTypes` set. -/
def checkUnsupportedRootTypes (s : SchemaModel) : List (String × Nat) :=
  ((s.types.filter (rootSuspectFilter s)).filter
    (fun t => !((canonicalRootNames s).contains t.name) && t.kind == "OBJECT")).map
    (fun t => (t.name, fieldCountOf t))

/-- The `supportedTypes` set of ListRootFieldsTool lines 46-64: only the root
names of the branches selected by the optional `fieldType` argument are
registered. -/
def listRootFieldsSupportedTypes (s : SchemaModel) (fieldType : Option String) : List String :=
  (if fieldType.isNone || fieldType == some "QUERY" then
    (match s.queryType with | some q => [q] | none => []) else [])
  ++ (if fieldType.isNone || fieldType == some "MUTATION" then
    (match s.mutationType with | some m => [m] | none => []) else [])
  ++ (if fieldType.isNone || fieldType == some "SUBSCRIPTION" then
    (match s.subscriptionType with | some sub => [sub] | none => []) else [])

/-- Embedding of the suspect detection of ListRootFieldsTool.execute
(lines 66-82): same filter, then names not in the branch-dependent
`supportedTypes` set are pushed. -/
def listRootFieldsUnsupportedTypes (s : SchemaModel) (fieldType : Option String) : List String :=
  ((s.types.filter (rootSuspectFilter s)).filter
    (fun t => !((listRootFieldsSupportedTypes s fieldType).contains t.name))).map
    (fun t => t.name)

/-- The classification the spec describes (section 4.3): suspect exactly the
OBJECT types whose name ends in `_root`, is not bound as one of the canonical
query/mutation/subscription roots, and does not start with the reserved `__`
prefix. -/
def specSuspect (s : SchemaModel) (t : SType) : Bool :=
  t.kind == "OBJECT" && jsEndsWith t.name "_root" &&
    !((canonicalRootNames s).contains t.name) && !(jsStartsWith t.name "__")

mutual

/-- Every array node of the value has length at most the 100-row ceiling:
the shape the trim claim asserts of every processed response. -/
def arrayNodesWithinCeiling : JsValue → Bool
  | .arr xs => decide (xs.length ≤ 100) && arrayNodesWithinCeilingList xs
  | .obj fs => arrayNodesWithinCeilingPairs fs
  | _ => true

/-- List form of `arrayNodesWithinCeiling`. -/
def arrayNodesWithinCeilingList : List JsValue → Bool
  | [] => true
  | x :: xs => arrayNodesWithinCeiling x && arrayNodesWithinCeilingList xs

/-- Object form of `arrayNodesWithinCeiling`. -/
def arrayNodesWithinCeilingPairs : List (String × JsValue) → Bool
  | [] => true
  | p :: fs => arrayNodesWithinCeiling p.2 && arrayNodesWithinCeilingPairs fs

end

/-- Value of a top-level key of an object value. -/
def objLookup (j : JsValue) (k : String) : Option JsValue :=
  match j with
  | .obj fs => fs.lookup k
  | _ => none

/-- Top-level keys of a pair list. -/
def pairKeys (fs : List (String × JsValue)) : List String :=
  fs.map (fun p => p.1)

/-- An array one over the ceiling, used as a nested probe. -/
def oversizedInner : JsValue :=
  .arr (List.replicate 101 (JsValue.num 0))

/-- Response containing an oversized array whose truncated prefix retains
another oversized array (key `a`), and an in-ceiling array whose element is
oversized (key `b`). -/
def c1CounterInput : JsValue :=
  .obj [("a", .arr (oversizedInner :: List.replicate 100 (JsValue.num 0))),
        ("b", .arr [.arr (List.replicate 150 (JsValue.num 0))])]

/-- The synthetic response of the spec's trim test: an array of length 150 at
path `a.b` and one of length 50 at path `a.c`. -/
def trimSpecExample : JsValue :=
  .obj [("a", .obj [("b", .arr (List.replicate 150 (JsValue.num 0))),
                    ("c", .arr (List.replicate 50 (JsValue.num 0)))])]

/-- A wrapper chain with no terminal NAMED node: NON_NULL over LIST with the
innermost `ofType` absent. -/
def namelessChain : TypeNode :=
  .wrap "NON_NULL" none (.leaf "LIST" none)

/-- A plain list of non-null Strings: LIST over NON_NULL over the named
scalar. -/
def listOfNonNullString : TypeNode :=
  .wrap "LIST" none (.wrap "NON_NULL" none (.leaf "SCALAR" (some "String")))

def c8ExampleSchema : SchemaModel :=
  ⟨some "query_root", none, none,
   [⟨"OBJECT", "query_root", some [⟨"users", .leaf "OBJECT" (some "users")⟩]⟩,
    ⟨"OBJECT", "weird_root", some [⟨"f1", .leaf "SCALAR" (some "Int")⟩,
                                   ⟨"f2", .leaf "SCALAR" (some "Int")⟩]⟩,
    ⟨"OBJECT", "__meta_root", some []⟩,
    ⟨"SCALAR", "Int", none⟩]⟩

def c8CleanSchema : SchemaModel :=
  ⟨some "query_root", some "mutation_root", none,
   [⟨"OBJECT", "query_root", some []⟩,
    ⟨"OBJECT", "mutation_root", some []⟩,
    ⟨"SCALAR", "String", none⟩]⟩

def c6WitnessFields : List FieldDef :=
  [⟨"id", .wrap "NON_NULL" none (.leaf "SCALAR" (some "Int"))⟩,
   ⟨"owner", .leaf "OBJECT" (some "User")⟩]

set_option maxRecDepth 8000

theorem trimArray_length (xs : List JsValue) : ∀ path idx, (trimArray xs path idx).1.length = xs.length := by
  induction xs with
  | nil => intro path idx; rfl
  | cons x xs ih => intro path idx; simp [trimArray, ih]

theorem describeResolve_chain (t : TypeNode) :
    ∀ nn l, describeResolve t nn l = ⟨chainName t, nn || chainHasNonNull t, l || chainHasList t⟩ := by
  induction t with
  | leaf k n =>
    intro nn l
    by_cases h1 : (k == "NON_NULL") = true
    · have hk := beq_iff_eq.mp h1
      subst hk
      simp [describeResolve, chainName, chainHasNonNull, chainHasList]
    · by_cases h2 : (k == "LIST") = true
      · have hk := beq_iff_eq.mp h2
        subst hk
        simp [describeResolve, chainName, chainHasNonNull, chainHasList]
      · simp [describeResolve, chainName, chainHasNonNull, chainHasList, h1, h2]
  | wrap k n t ih =>
    intro nn l
    by_cases h1 : (k == "NON_NULL") = true
    · have hk := beq_iff_eq.mp h1
      subst hk
      simp [describeResolve, chainName, chainHasNonNull, chainHasList, ih]
    · by_cases h2 : (k == "LIST") = true
      · have hk := beq_iff_eq.mp h2
        subst hk
        simp [describeResolve, chainName, chainHasNonNull, chainHasList, ih]
      · simp [describeResolve, chainName, chainHasNonNull, chainHasList, h1, h2]

theorem chainName_unterminated {t : TypeNode} (h : unterminatedChain t = true) : chainName t = "" := by
  induction t with
  | leaf k n =>
    simp [unterminatedChain] at h
    simp [chainName, h]
  | wrap k n t ih =>
    simp [unterminatedChain] at h
    simp [chainName, h.1, ih h.2]

theorem previewLeafKind_unterminated {t : TypeNode} (h : unterminatedChain t = true) :
    previewLeafKind t = none := by
  induction t with
  | leaf k n =>
    simp [unterminatedChain] at h
    simp [previewLeafKind, h]
  | wrap k n t ih =>
    simp [unterminatedChain] at h
    simp [previewLeafKind, h.1, ih h.2]

theorem mem_pairKeys_setPair (fs : List (String × JsValue)) (k : String) (v : JsValue)
    (key : String) (h : key ∈ pairKeys fs) : key ∈ pairKeys (setPair fs k v) := by
  induction fs with
  | nil => simp [pairKeys] at h
  | cons p rest ih =>
    simp [pairKeys] at h
    by_cases hp : (p.1 == k) = true
    · have : p.1 = k := beq_iff_eq.mp hp
      rcases h with h | h
      · simp [setPair, hp, pairKeys, this ▸ h]
      · simp [setPair, hp, pairKeys]
        right
        exact h
    · rcases h with h | h
      · simp [setPair, hp, pairKeys]
        left
        exact h
      · simp [setPair, hp, pairKeys]
        right
        have := ih (by simp [pairKeys, h])
        simpa [pairKeys] using this

theorem previewFilterFields_total (fields : List FieldDef)
    (h : ∀ f ∈ fields, (previewLeafKind f.type).isSome = true) :
    previewFilterFields fields = some (fields.filter (fun f =>
      previewLeafKind f.type == some "SCALAR" || previewLeafKind f.type == some "ENUM")) := by
  induction fields with
  | nil => rfl
  | cons f fs ih =>
    have hf : (previewLeafKind f.type).isSome = true := h f (by simp)
    obtain ⟨k, hk⟩ := Option.isSome_iff_exists.mp hf
    have hrest := ih (fun g hg => h g (by simp [hg]))
    by_cases hs : (k == "SCALAR" || k == "ENUM") = true
    · simp [previewFilterFields, hk, hrest, List.filter_cons, hs]
    · simp [previewFilterFields, hk, hrest, List.filter_cons, hs]

theorem beq_empty_false_of_endsWith_root {n : String} (h : jsEndsWith n "_root" = true) :
    (n == "") = false := by
  cases he : (n == "") with
  | false => rfl
  | true =>
    have hn : n = "" := beq_iff_eq.mp he
    subst hn
    exact absurd h (by decide)

theorem contains_rootTypeNames (s : SchemaModel) {n : String} (h : (n == "") = false) :
    (rootTypeNamesOf s).contains n = (canonicalRootNames s).contains n := by
  apply Bool.eq_iff_iff.mpr
  constructor
  · intro hc
    have hm : n ∈ rootTypeNamesOf s := List.elem_iff.mp hc
    have := (List.mem_filter.mp hm).1
    exact List.elem_iff.mpr this
  · intro hc
    have hm : n ∈ canonicalRootNames s := List.elem_iff.mp hc
    apply List.elem_iff.mpr
    apply List.mem_filter.mpr
    exact ⟨hm, by simp [h]⟩

theorem mem_canonical_of_mem_supported {s : SchemaModel} {ft : Option String} {n : String}
    (h : n ∈ listRootFieldsSupportedTypes s ft) : n ∈ canonicalRootNames s := by
  unfold listRootFieldsSupportedTypes at h
  unfold canonicalRootNames
  simp only [List.mem_append] at h
  rcases h with (h | h) | h <;>
  · split at h
    case isTrue =>
      split at h <;> simp_all [List.mem_filterMap]
    case isFalse => simp at h

theorem string_contains_iff {l : List String} {a : String} : l.contains a = true ↔ a ∈ l := by
  simp [List.contains, List.elem_iff]

theorem check_pointwise (s : SchemaModel) (t : SType) :
    ((!((canonicalRootNames s).contains t.name) && t.kind == "OBJECT") && rootSuspectFilter s t)
      = specSuspect s t := by
  by_cases he : jsEndsWith t.name "_root" = true
  · have hne := beq_empty_false_of_endsWith_root he
    have hc := contains_rootTypeNames s hne
    unfold rootSuspectFilter specSuspect
    rw [hc]
    cases hk : (t.kind == "OBJECT") <;> cases hcc : ((canonicalRootNames s).contains t.name) <;>
      cases hst : (jsStartsWith t.name "__") <;> simp [he, hk, hcc, hst]
  · have he2 : jsEndsWith t.name "_root" = false := by simpa using he
    unfold rootSuspectFilter specSuspect
    simp [he2]

theorem list_pointwise (s : SchemaModel) (ft : Option String) (t : SType) :
    (!((listRootFieldsSupportedTypes s ft).contains t.name) && rootSuspectFilter s t)
      = specSuspect s t := by
  by_cases he : jsEndsWith t.name "_root" = true
  · have hne := beq_empty_false_of_endsWith_root he
    have hc := contains_rootTypeNames s hne
    unfold rootSuspectFilter specSuspect
    rw [hc]
    cases hcc : ((canonicalRootNames s).contains t.name) with
    | true => simp [hcc]
    | false =>
      have hsub : ((listRootFieldsSupportedTypes s ft).contains t.name) = false := by
        cases hx : ((listRootFieldsSupportedTypes s ft).contains t.name) with
        | false => rfl
        | true =>
          have hmem := string_contains_iff.mp hx
          have hcan : ((canonicalRootNames s).contains t.name) = true :=
            string_contains_iff.mpr (mem_canonical_of_mem_supported hmem)
          rw [hcan] at hcc
          exact absurd hcc (by simp)
      simp [hsub, hcc]
      intro _ _ _ hm
      have hx := string_contains_iff.mpr hm
      rw [hx] at hsub
      exact absurd hsub (by decide)
  · have he2 : jsEndsWith t.name "_root" = false := by simpa using he
    unfold rootSuspectFilter specSuspect
    simp [he2]

theorem checkUnsupported_eq (s : SchemaModel) :
    checkUnsupportedRootTypes s
      = (s.types.filter (specSuspect s)).map (fun t => (t.name, fieldCountOf t)) := by
  unfold checkUnsupportedRootTypes
  rw [List.filter_filter]
  congr 1
  apply List.filter_congr
  intro t _
  exact check_pointwise s t

theorem listRootFieldsUnsupported_eq (s : SchemaModel) (ft : Option String) :
    listRootFieldsUnsupportedTypes s ft
      = (s.types.filter (specSuspect s)).map (fun t => t.name) := by
  unfold listRootFieldsUnsupportedTypes
  rw [List.filter_filter]
  congr 1
  apply List.filter_congr
  intro t _
  exact list_pointwise s ft t

/-- C2: with no explicit limit or a limit over 100 and forceBigQuery unset, the
pre-flight query tool rejects before the external request function is invoked;
an explicit limit of at most 100, or the override flag, never triggers the
limit rejection. -/
theorem c2_preflight_ceiling :
    (∀ q vs offset, ∃ msg, runGraphQLQueryExecutePreflight q vs none offset false = .rejected msg) ∧
    (∀ q vs offset l, 100 < l →
      ∃ msg, runGraphQLQueryExecutePreflight q vs (some l) offset false = .rejected msg) ∧
    (∀ q vs offset, (runGraphQLQueryExecutePreflight q vs none offset false).reachesNetwork = false) ∧
    (∀ q vs offset l, l ≤ 100 →
      runGraphQLQueryExecutePreflight q vs (some l) offset false ≠ .rejected limitRejectText) ∧
    (∀ q vs limit offset,
      runGraphQLQueryExecutePreflight q vs limit offset true ≠ .rejected limitRejectText) := by
  refine ⟨?_, ?_, ?_, ?_, ?_⟩
  · intro q vs offset
    by_cases hm : isMutationPrefixed q = true
    · exact ⟨readOnlyRejectText, by simp [runGraphQLQueryExecutePreflight, hm]⟩
    · exact ⟨limitRejectText, by simp [runGraphQLQueryExecutePreflight, hm]⟩
  · intro q vs offset l hl
    by_cases hm : isMutationPrefixed q = true
    · exact ⟨readOnlyRejectText, by simp [runGraphQLQueryExecutePreflight, hm]⟩
    · exact ⟨limitRejectText, by simp [runGraphQLQueryExecutePreflight, hm, hl]⟩
  · intro q vs offset
    by_cases hm : isMutationPrefixed q = true <;>
      simp [runGraphQLQueryExecutePreflight, hm, PreflightOutcome.reachesNetwork]
  · intro q vs offset l hl
    by_cases hm : isMutationPrefixed q = true
    · simp [runGraphQLQueryExecutePreflight, hm]
      intro h
      exact absurd (congrArg id h) (by simp [readOnlyRejectText, limitRejectText])
    · simp [runGraphQLQueryExecutePreflight, hm, Nat.not_lt.mpr hl]
  · intro q vs limit offset
    by_cases hm : isMutationPrefixed q = true
    · simp [runGraphQLQueryExecutePreflight, hm]
      intro h
      exact absurd (congrArg id h) (by simp [readOnlyRejectText, limitRejectText])
    · simp [runGraphQLQueryExecutePreflight, hm]

/-- Witness for C2 at concrete inputs: limit 101 is rejected before the
network, limit 100 never triggers the limit rejection. -/
theorem c2_preflight_ceiling_witness :
    (100 < 101 ∧ ∃ msg, runGraphQLQueryExecutePreflight "query q" none (some 101) none false = .rejected msg) ∧
    (100 ≤ 100 ∧ runGraphQLQueryExecutePreflight "query q" none (some 100) none false ≠ .rejected limitRejectText) :=
  ⟨⟨by decide, c2_preflight_ceiling.2.1 "query q" none none 101 (by decide)⟩,
   ⟨by decide, c2_preflight_ceiling.2.2.2.1 "query q" none none 100 (by decide)⟩⟩

/-- C3: the read-only path rejects a document before the network exactly when
it begins, case-insensitively after trimming, with the mutation keyword, and
the mutation path rejects exactly when it does not; accepted documents are
sent verbatim, never coerced. -/
theorem c3_role_check :
    (∀ q vs fbq resp,
      runGraphQLQueryExecute q vs fbq resp = QueryToolOutcome.rejected readOnlyRejectText
        ↔ isMutationPrefixed q = true) ∧
    (∀ q vs fbq resp, isMutationPrefixed q = false →
      runGraphQLQueryExecute q vs fbq resp
        = QueryToolOutcome.requested q (vs.getD []) (runQueryResult fbq resp)) ∧
    (∀ m vs,
      runGraphQLMutationExecute m vs = PreflightOutcome.rejected notMutationRejectText
        ↔ isMutationPrefixed m = false) ∧
    (∀ m vs, isMutationPrefixed m = true →
      runGraphQLMutationExecute m vs = PreflightOutcome.requested m (vs.getD [])) ∧
    isMutationPrefixed "  MUTATION Up(x: 1)" = true ∧
    isMutationPrefixed "query Q" = false ∧
    isMutationPrefixed "\n\tmUtAtIoN m" = true := by
  refine ⟨?_, ?_, ?_, ?_, by rfl, by rfl, by rfl⟩
  · intro q vs fbq resp
    by_cases hm : isMutationPrefixed q = true <;> simp [runGraphQLQueryExecute, hm]
  · intro q vs fbq resp hm
    simp [runGraphQLQueryExecute, hm]
  · intro m vs
    by_cases hm : isMutationPrefixed m = true <;> simp [runGraphQLMutationExecute, hm]
  · intro m vs hm
    simp [runGraphQLMutationExecute, hm]

/-- Witness for C3 at concrete documents: a query document passes the
read-only path verbatim, a mutation document passes the mutation path
verbatim. -/
theorem c3_role_check_witness :
    (isMutationPrefixed "query Q" = false ∧
      runGraphQLQueryExecute "query Q" none false (.obj [])
        = QueryToolOutcome.requested "query Q" [] (runQueryResult false (.obj []))) ∧
    (isMutationPrefixed "mutation M" = true ∧
      runGraphQLMutationExecute "mutation M" none
        = PreflightOutcome.requested "mutation M" []) :=
  ⟨⟨by rfl, c3_role_check.2.1 "query Q" none false (.obj []) (by rfl)⟩,
   ⟨by rfl, c3_role_check.2.2.2.1 "mutation M" none (by rfl)⟩⟩

/-- C5: a populated schema cache is returned as-is with no fetch; a successful
fetch populates the cache and two sequential calls yield the identical schema
with only the first invoking the fetch; a failed fetch or a reply without the
schema member propagates a contextualized error, leaves the cache empty, and
the next call fetches again. -/
theorem c5_schema_cache :
    (∀ s fetch, getIntrospectionSchemaStep (some s) fetch = ⟨.ok s, some s, false⟩) ∧
    (∀ sch, getIntrospectionSchemaStep none (.ok (some sch)) = ⟨.ok sch, some sch, true⟩) ∧
    (∀ sch fetch2,
      getIntrospectionSchemaStep (getIntrospectionSchemaStep none (.ok (some sch))).cacheAfter fetch2
        = ⟨.ok sch, some sch, false⟩) ∧
    (∀ m, getIntrospectionSchemaStep none (.err m)
        = ⟨.error ("Failed to get GraphQL schema: " ++ m), none, true⟩) ∧
    (getIntrospectionSchemaStep none (.ok none)).result
        = .error ("Failed to get GraphQL schema: " ++ "Introspection query did not return a __schema object.") ∧
    (getIntrospectionSchemaStep none (.ok none)).cacheAfter = none ∧
    (∀ m fetch2,
      (getIntrospectionSchemaStep (getIntrospectionSchemaStep none (.err m)).cacheAfter fetch2).fetchInvoked
        = true) := by
  refine ⟨fun s fetch => rfl, fun sch => rfl, fun sch fetch2 => rfl, fun m => rfl, rfl, rfl, ?_⟩
  intro m fetch2
  cases fetch2 with
  | ok r => cases r <;> rfl
  | err m2 => rfl

/-- C7: the synthesized aggregate selection is the bare count selection for
the count function and the function/field nesting for sum, avg, min, max;
those four functions with no field supplied are rejected before any network
call. -/
theorem c7_aggregate_selection :
    (∀ field, aggregateSelection "count" field = some "\x7b count \x7d") ∧
    (∀ fn f, fn ∈ (["sum", "avg", "min", "max"] : List String) → ¬(f = "") →
      aggregateSelection fn (some f) = some ("\x7b " ++ fn ++ " \x7b " ++ f ++ " \x7d \x7d")) ∧
    (∀ table fn filt, ¬(fn = "count") →
      aggregateExecute table fn none filt
        = .rejected ("The \x27field\x27 parameter is required for \x27" ++ fn ++ "\x27 aggregation.")) ∧
    (aggregateExecute "users" "count" none none
      = .requested ("\n      query AggregateData " ++ "" ++ " \x7b\n        " ++ "users_aggregate"
          ++ "(" ++ "" ++ ") \x7b\n          aggregate " ++ "\x7b count \x7d"
          ++ "\n        \x7d\n      \x7d\n    ") []) ∧
    (aggregateExecute "orders" "sum" (some "amount") none
      = .requested ("\n      query AggregateData " ++ "" ++ " \x7b\n        " ++ "orders_aggregate"
          ++ "(" ++ "" ++ ") \x7b\n          aggregate " ++ "\x7b sum \x7b amount \x7d \x7d"
          ++ "\n        \x7d\n      \x7d\n    ") []) ∧
    (aggregateExecute "orders" "count" none (some (.obj []))
      = .requested ("\n      query AggregateData " ++ "($filter: orders_bool_exp!)" ++ " \x7b\n        "
          ++ "orders_aggregate" ++ "(" ++ "where: $filter" ++ ") \x7b\n          aggregate "
          ++ "\x7b count \x7d" ++ "\n        \x7d\n      \x7d\n    ") [("filter", .obj [])]) := by
  refine ⟨fun field => rfl, ?_, ?_, by rfl, by rfl, by rfl⟩
  · intro fn f hfn hf
    have hb : (f == "") = false := beq_eq_false_iff_ne.mpr hf
    fin_cases hfn <;> simp [aggregateSelection, jsTruthy, hb]
  · intro table fn filt hfn
    have hb : (fn == "count") = false := beq_eq_false_iff_ne.mpr hfn
    simp [aggregateExecute, hb, jsTruthy]

/-- Witness for C7 at concrete inputs: the sum selection for a present field,
and the pre-network rejection for sum with no field. -/
theorem c7_aggregate_selection_witness :
    ("sum" ∈ (["sum", "avg", "min", "max"] : List String) ∧ ¬("total" = "") ∧
      aggregateSelection "sum" (some "total")
        = some ("\x7b " ++ "sum" ++ " \x7b " ++ "total" ++ " \x7d \x7d")) ∧
    (¬("avg" = "count") ∧
      aggregateExecute "users" "avg" none none
        = .rejected ("The \x27field\x27 parameter is required for \x27" ++ "avg" ++ "\x27 aggregation.")) :=
  ⟨⟨by decide, by decide, c7_aggregate_selection.2.1 "sum" "total" (by decide) (by decide)⟩,
   ⟨by decide, c7_aggregate_selection.2.2.1 "users" "avg" none (by decide)⟩⟩

/-- C9 counterexample: on a plain LIST over NON_NULL over String — a list of
non-null Strings, whose outermost layer is not NON_NULL — the code renders
`[String]!` with a trailing bang, while the outermost-marker rule of the
claim renders `[String]`. -/
theorem c9_display_counterexample :
    outermostIsNonNull listOfNonNullString = false ∧
    describeTypeDisplay listOfNonNullString = "[String]!" ∧
    specOutermostDisplay listOfNonNullString = "[String]" ∧
    describeTypeDisplay listOfNonNullString ≠ specOutermostDisplay listOfNonNullString :=
  ⟨rfl, rfl, rfl, by decide⟩

/-- C9 amended: the display string brackets the innermost name when any LIST
layer was observed and carries the trailing bang exactly when any NON_NULL
layer was observed anywhere in the walked chain, not only the outermost
marker; the claim's non-null list of Strings still renders `[String]!`. -/
theorem c9_display_amended :
    (∀ t, describeTypeDisplay t
      = (if chainHasList t then "[" ++ chainName t ++ "]" else chainName t)
        ++ (if chainHasNonNull t then "!" else "")) ∧
    describeTypeDisplay (.wrap "NON_NULL" none (.wrap "LIST" none (.leaf "SCALAR" (some "String"))))
      = "[String]!" := by
  refine ⟨?_, by rfl⟩
  intro t
  unfold describeTypeDisplay
  rw [describeResolve_chain]
  cases chainHasNonNull t <;> cases chainHasList t <;> simp [String.append_empty]

/-- C4 counterexample: on a wrapper chain with no terminal NAMED node the
Describe resolver runs to completion and renders the normal display `[]!`
instead of signalling any SchemaMalformed error, and the Preview unwrapper
has no result at all (the JS loop dereferences an absent `ofType`, a runtime
TypeError rather than a SchemaMalformed signal). -/
theorem c4_resolver_counterexample :
    unterminatedChain namelessChain = true ∧
    describeResolve namelessChain false false = ⟨"", true, true⟩ ∧
    describeTypeDisplay namelessChain = "[]!" ∧
    previewLeafKind namelessChain = none :=
  ⟨rfl, rfl, rfl, rfl⟩

/-- C4 amended: the resolver is a total function — it terminates on every
finite wrapper chain and returns the innermost recovered name with the
observed isNonNull/isList flags; a chain that terminates without a NAMED
node is not rejected: the Describe walk silently yields the empty type name
and the Preview unwrap has no result; a deep well-formed chain resolves to
its innermost name. No depth bound and no SchemaMalformed signal exist. -/
theorem c4_resolver_amended :
    (∀ t nn l, describeResolve t nn l = ⟨chainName t, nn || chainHasNonNull t, l || chainHasList t⟩) ∧
    (∀ t, unterminatedChain t = true →
      (describeResolve t false false).typeString = "" ∧ previewLeafKind t = none) ∧
    describeResolve
      (.wrap "NON_NULL" none (.wrap "LIST" none (.wrap "NON_NULL" none
        (.wrap "LIST" none (.wrap "NON_NULL" none (.leaf "SCALAR" (some "Int"))))))) false false
      = ⟨"Int", true, true⟩ := by
  refine ⟨describeResolve_chain, ?_, by rfl⟩
  intro t ht
  refine ⟨?_, previewLeafKind_unterminated ht⟩
  rw [describeResolve_chain]
  exact chainName_unterminated ht

/-- Witness for C4 at a concrete malformed chain: a bare LIST node with no
`ofType` is unterminated, resolves to the empty name, and crashes the
Preview unwrap. -/
theorem c4_resolver_amended_witness :
    unterminatedChain (TypeNode.leaf "LIST" none) = true ∧
    ((describeResolve (TypeNode.leaf "LIST" none) false false).typeString = ""
      ∧ previewLeafKind (TypeNode.leaf "LIST" none) = none) :=
  ⟨by rfl, c4_resolver_amended.2.1 (TypeNode.leaf "LIST" none) (by rfl)⟩

/-- C1 counterexample: with override unset, an oversized array kept inside a
truncated array's retained prefix survives over the ceiling (so not every
array node longer than 100 is truncated), and an array of length 1 — well
under the ceiling — does not come back unchanged: its oversized element is
rewritten. -/
theorem c1_trim_counterexample :
    arrayNodesWithinCeiling (runQueryResult false c1CounterInput) = false ∧
    objLookup (runQueryResult false c1CounterInput) "b"
      = some (.arr [.arr (List.replicate 100 (JsValue.num 0))]) ∧
    objLookup c1CounterInput "b"
      = some (.arr [.arr (List.replicate 150 (JsValue.num 0))]) :=
  ⟨by rfl, by rfl, by rfl⟩

/-- C1 amended: every array node the recursive walk reaches with length over
100 is truncated to its first 100 entries (returned verbatim, without further
walking) with its path and original length recorded; reached arrays of length
at most 100 keep their length while their elements are processed recursively;
the spec's synthetic 150/50 example trims `a.b` to 100 entries, leaves `a.c`
unchanged, and records exactly `a.b (150 rows trimmed to 100)` in the
`_warning` annotation; the annotation preserves every existing top-level key;
with the override flag set the response is returned unchanged. -/
theorem c1_trim_amended :
    (∀ j, runQueryResult true j = j) ∧
    (runQueryResult false trimSpecExample
      = .obj [("a", .obj [("b", .arr (List.replicate 100 (JsValue.num 0))),
                          ("c", .arr (List.replicate 50 (JsValue.num 0)))]),
              ("_warning", .str (trimWarningText ["a.b (150 rows trimmed to 100)"]))]) ∧
    (runQueryResult true trimSpecExample = trimSpecExample) ∧
    (∀ path xs, 100 < xs.length →
      trimResult (.arr xs) path
        = (.arr (xs.take 100), [path ++ " (" ++ toString xs.length ++ " rows trimmed to 100)"])) ∧
    (∀ path xs, xs.length ≤ 100 →
      ∃ ys, (trimResult (.arr xs) path).1 = .arr ys ∧ ys.length = xs.length) ∧
    (∀ j ws key, key ∈ pairKeys (jsSpreadPairs j) → key ∈ pairKeys (jsSpreadPairs (withWarningKey j ws))) := by
  refine ⟨fun j => rfl, by rfl, by rfl, ?_, ?_, ?_⟩
  · intro path xs h
    simp [trimResult, h]
  · intro path xs h
    have hn : ¬(100 < xs.length) := Nat.not_lt.mpr h
    refine ⟨(trimArray xs path 0).1, ?_, trimArray_length xs path 0⟩
    simp [trimResult, hn]
  · intro j ws key hk
    exact mem_pairKeys_setPair (jsSpreadPairs j) "_warning" (.str (trimWarningText ws)) key hk

/-- Witness for C1 at concrete arrays: a 101-element array is truncated with
its path and original length recorded, a 50-element array keeps its length,
and the key `a` of the spec example survives the annotation. -/
theorem c1_trim_amended_witness :
    (100 < (List.replicate 101 (JsValue.num 0)).length ∧
      trimResult (.arr (List.replicate 101 (JsValue.num 0))) "root"
        = (.arr ((List.replicate 101 (JsValue.num 0)).take 100),
           ["root" ++ " (" ++ toString (List.replicate 101 (JsValue.num 0)).length
             ++ " rows trimmed to 100)"])) ∧
    ((List.replicate 50 (JsValue.num 0)).length ≤ 100 ∧
      ∃ ys, (trimResult (.arr (List.replicate 50 (JsValue.num 0))) "a").1 = .arr ys
        ∧ ys.length = (List.replicate 50 (JsValue.num 0)).length) ∧
    ("a" ∈ pairKeys (jsSpreadPairs trimSpecExample) ∧
      "a" ∈ pairKeys (jsSpreadPairs (withWarningKey trimSpecExample ["w"]))) :=
  ⟨⟨by decide, c1_trim_amended.2.2.2.1 "root" (List.replicate 101 (JsValue.num 0)) (by decide)⟩,
   ⟨by decide, c1_trim_amended.2.2.2.2.1 "a" (List.replicate 50 (JsValue.num 0)) (by decide)⟩,
   ⟨by decide, c1_trim_amended.2.2.2.2.2 trimSpecExample ["w"] "a" (by decide)⟩⟩

/-- C10: a truncated array's retained first 100 elements are returned as-is
with no further walking, so an oversized array nested there survives over the
ceiling and goes unreported, while the same oversized array under an
in-ceiling array is trimmed under its bracketed index path; object values
are walked recursively. -/
theorem c10_trim_no_walk_into_truncated :
    (∀ path xs, 100 < xs.length →
      trimResult (.arr xs) path
        = (.arr (xs.take 100), [path ++ " (" ++ toString xs.length ++ " rows trimmed to 100)"])) ∧
    (runQueryResult false (.obj [("a", .arr (oversizedInner :: List.replicate 100 (JsValue.num 0)))])
      = .obj [("a", .arr (oversizedInner :: List.replicate 99 (JsValue.num 0))),
              ("_warning", .str (trimWarningText ["a (101 rows trimmed to 100)"]))]) ∧
    (runQueryResult false (.obj [("a", .arr [oversizedInner])])
      = .obj [("a", .arr [.arr (List.replicate 100 (JsValue.num 0))]),
              ("_warning", .str (trimWarningText ["a[0] (101 rows trimmed to 100)"]))]) := by
  refine ⟨?_, by rfl, by rfl⟩
  intro path xs h
  simp [trimResult, h]

/-- Witness for C10 at a concrete 102-element array: the truncation equation
applied directly. -/
theorem c10_trim_no_walk_into_truncated_witness :
    100 < (List.replicate 102 (JsValue.num 0)).length ∧
    trimResult (.arr (List.replicate 102 (JsValue.num 0))) "rows"
      = (.arr ((List.replicate 102 (JsValue.num 0)).take 100),
         ["rows" ++ " (" ++ toString (List.replicate 102 (JsValue.num 0)).length
           ++ " rows trimmed to 100)"]) :=
  ⟨by decide, c10_trim_no_walk_into_truncated.1 "rows" (List.replicate 102 (JsValue.num 0)) (by decide)⟩

/-- C6: for fields whose wrapper chains all resolve, the projection keeps
exactly the fields whose innermost kind is SCALAR or ENUM, in original order,
and falls back to the single synthetic `__typename` field when none remain;
projecting twice against the same schema yields identical output. -/
theorem c6_field_projection :
    (∀ fields, (∀ f ∈ fields, (previewLeafKind f.type).isSome = true) →
      previewScalarFields fields = some (projectionSpec fields)) ∧
    (∀ fields r1 r2, previewScalarFields fields = r1 → previewScalarFields fields = r2 → r1 = r2) ∧
    previewScalarFields [⟨"rel", .leaf "OBJECT" (some "T")⟩,
                         ⟨"rels", .wrap "LIST" none (.leaf "OBJECT" (some "T"))⟩]
      = some ["__typename"] ∧
    previewScalarFields [⟨"id", .wrap "NON_NULL" none (.leaf "SCALAR" (some "Int"))⟩,
                         ⟨"owner", .leaf "OBJECT" (some "User")⟩,
                         ⟨"name", .leaf "SCALAR" (some "String")⟩,
                         ⟨"status", .leaf "ENUM" (some "order_status")⟩]
      = some ["id", "name", "status"] := by
  refine ⟨?_, ?_, by rfl, by rfl⟩
  · intro fields h
    have heq := previewFilterFields_total fields h
    simp [previewScalarFields, projectionSpec, heq]
  · intro fields r1 r2 h1 h2
    rw [← h1, ← h2]

/-- Witness for C6 at a concrete field list: both wrapper chains resolve and
the projection agrees with the spec projection. -/
theorem c6_field_projection_witness :
    ((∀ f ∈ c6WitnessFields, (previewLeafKind f.type).isSome = true) ∧
      previewScalarFields c6WitnessFields = some (projectionSpec c6WitnessFields)) ∧
    ((some ["id"] : Option (List String)) = some ["id"]) :=
  ⟨⟨by decide, c6_field_projection.1 c6WitnessFields (by decide)⟩,
   c6_field_projection.2.1 c6WitnessFields (some ["id"]) (some ["id"]) (by rfl) (by rfl)⟩

/-- C8: both classifiers report as suspect exactly the OBJECT types whose
name ends in `_root`, is not bound as a canonical query/mutation/subscription
root, and does not start with the reserved `__` prefix; the `weird_root`
example yields exactly that one suspect with its field count, the clean
schema yields none, and reserved-prefixed names are never reported. -/
theorem c8_root_type_classifier :
    (∀ s, checkUnsupportedRootTypes s
      = (s.types.filter (specSuspect s)).map (fun t => (t.name, fieldCountOf t))) ∧
    (∀ s ft, listRootFieldsUnsupportedTypes s ft
      = (s.types.filter (specSuspect s)).map (fun t => t.name)) ∧
    checkUnsupportedRootTypes c8ExampleSchema = [("weird_root", 2)] ∧
    checkUnsupportedRootTypes c8CleanSchema = [] ∧
    listRootFieldsUnsupportedTypes c8ExampleSchema (some "QUERY") = ["weird_root"] :=
  ⟨checkUnsupported_eq, listRootFieldsUnsupported_eq, by rfl, by rfl, by rfl⟩
